import Mathlib

/-!
# Verification of the spiffe-sdk credential/transport/validation core

A shallow embedding of the Go SDK (`spiffe-client-sdk.go`) and proofs of the
spec's claims about it.  Timestamps (`time.Time`) are modelled as integers
(nanoseconds since epoch; Go's zero `time.Time` becomes `0`), durations
(`time.Duration`) likewise as integers.  Network calls are modelled by
passing the HTTP exchange's outcome (transport error, or a status code plus
the result of JSON-decoding the body) as an explicit argument.
-/

namespace SpiffeSdk

/-- `time.Time`, as an integer instant; the Go zero value is `0`. -/
abbrev Time := Int

/-- `time.Duration`, as an integer number of nanoseconds. -/
abbrev Duration := Int

/-- An opaque DER certificate as handed over by the TLS layer
(`x509.Certificate`); only its identity matters to the middleware. -/
abbrev Cert := String

/-- `ValidationResult` returned by the verification endpoint. -/
structure ValidationResult where
  Valid : Bool
  SPIFFEID : String
  Subject : String
  Issuer : String
  NotBefore : String
  NotAfter : String
deriving DecidableEq, Repr

/-- `SVIDResponse`: the decoded body of a successful SVID issuance call. -/
structure SVIDResponse where
  ID : String
  WorkloadID : String
  SPIFFEID : String
  X509SVID : String
  PrivateKey : String
  Bundle : String
  ExpiresAt : Time
  IssuedAt : Time
deriving DecidableEq, Repr

/-- `SVIDCache`: the credential store's contents (certificate, key, bundle,
validity window).  The mutex is concurrency plumbing and is not part of the
value. -/
structure SVIDCache where
  SVID : String
  PrivateKey : String
  Bundle : String
  ExpiresAt : Time
  IssuedAt : Time
deriving DecidableEq, Repr

/-- The credential store as built by `NewSpiffeSDK`: `&SVIDCache{}`, the Go
zero value — empty strings and zero times. -/
def newSpiffeSDKCache : SVIDCache :=
  { SVID := "", PrivateKey := "", Bundle := "", ExpiresAt := 0, IssuedAt := 0 }

/-- `GetCurrentSVID`: returns the store's current certificate string. -/
def GetCurrentSVID (cache : SVIDCache) : String :=
  cache.SVID

/-- `time.Until(cache.ExpiresAt)` as computed on a renewal tick. -/
def timeToExpiry (cache : SVIDCache) (now : Time) : Duration :=
  cache.ExpiresAt - now

/-! ## ValidationMiddleware (`IncomingValidationMiddleware`) -/

/-- `tls.ConnectionState` as far as the middleware reads it: the
peer-certificate list.  An inbound request carries `Option TLSConnectionState`
(`r.TLS` may be nil). -/
structure TLSConnectionState where
  PeerCertificates : List Cert
deriving DecidableEq, Repr

/-- What the middleware did with a request: wrote an error response without
running the wrapped handler, or ran the wrapped handler with the given
`"spiffe_id"` context value (`none` when no identity was attached). -/
inductive MiddlewareResult where
  | errorResponse (status : Nat) (msg : String)
  | handlerInvoked (ctxSpiffeID : Option String)
deriving DecidableEq, Repr

/-- The middleware's observable behaviour on one request, together with how
many times it called `ValidateIncomingSVID`. -/
structure MiddlewareTrace where
  result : MiddlewareResult
  verifyCalls : Nat
deriving DecidableEq, Repr

/-- `IncomingValidationMiddleware`, per request.  `validate` is
`ValidateIncomingSVID` (a remote call returning a result or an error),
`certToPEM` is the PEM encoding step, `tls` is `r.TLS`.  Mirrors the Go:
if a peer certificate is present, verify it and reject with 401 when the
call errors or `Valid` is false; otherwise fall through to the handler. -/
def IncomingValidationMiddleware
    (validate : String → Except String ValidationResult)
    (certToPEM : Cert → String)
    (tls : Option TLSConnectionState) : MiddlewareTrace :=
  match tls with
  | some st =>
    match st.PeerCertificates with
    | clientCert :: _ =>
      let certPEM := certToPEM clientCert
      match validate certPEM with
      | .error _ => ⟨.errorResponse 401 "Invalid client certificate", 1⟩
      | .ok result =>
        if !result.Valid then
          ⟨.errorResponse 401 "Invalid client certificate", 1⟩
        else
          ⟨.handlerInvoked (some result.SPIFFEID), 1⟩
    | [] => ⟨.handlerInvoked none, 0⟩
  | none => ⟨.handlerInvoked none, 0⟩

/-! ## TransportRouter (`smartTransport.RoundTrip`) -/

/-- Go helper `hasSuffix(s, suffix)`: length check plus equality of the
trailing slice (byte-for-byte in Go, character-for-character here —
identical on ASCII hostnames). -/
def hasSuffix (s suffix : String) : Bool :=
  decide (suffix.length ≤ s.length) && (s.drop (s.length - suffix.length) == suffix)

/-- Which round-tripper `smartTransport.RoundTrip` dispatches through. -/
inductive TransportChoice where
  | mtls
  | regular
deriving DecidableEq, Repr

/-- The host `smartTransport.RoundTrip` classifies: `req.URL.Host`, falling
back to `req.Host` when empty. -/
def requestHost (urlHost reqHost : String) : String :=
  if urlHost == "" then reqHost else urlHost

/-- The transport decision of `smartTransport.RoundTrip`: walk
`internalDomains` in order; a rule matching exactly, a dot-prefixed rule
matching as a suffix, or a bare rule matching exactly or as a
`"." ++ rule` suffix selects the mTLS transport; if no rule matches, the
regular transport is used. -/
def selectTransport (internalDomains : List String) (host : String) :
    TransportChoice :=
  match internalDomains with
  | [] => .regular
  | domain :: rest =>
    if host == domain
        || (decide (0 < domain.length) && (domain.front == '.')
            && hasSuffix host domain) then
      .mtls
    else if decide (1 < domain.length) && !(domain.front == '.')
        && (host == domain || hasSuffix host ("." ++ domain)) then
      .mtls
    else
      selectTransport rest host

/-! ## Credential refresh and the renewal loop -/

/-- `refreshSVID`, given the outcome of the `GetOrRefreshSVID` network
call: on error the store is returned untouched together with the error; on
success every credential field of the store is replaced from the
response. -/
def refreshSVID (fetched : Except String SVIDResponse) (cache : SVIDCache) :
    SVIDCache × Option String :=
  match fetched with
  | .error e => (cache, some e)
  | .ok svid =>
      ({ SVID := svid.X509SVID, PrivateKey := svid.PrivateKey,
         Bundle := svid.Bundle, ExpiresAt := svid.ExpiresAt,
         IssuedAt := svid.IssuedAt }, none)

/-- One `ticker.C` iteration of `startAutoRenewal`: read the store's
time-to-expiry; if it is at most the renewal threshold, make exactly one
`refreshSVID` attempt (logging but swallowing any error); otherwise do
nothing.  The second component counts the fetch attempts made on this
tick. -/
def renewalTick (renewalThreshold : Duration) (now : Time)
    (fetched : Except String SVIDResponse) (cache : SVIDCache) :
    SVIDCache × Nat :=
  if timeToExpiry cache now ≤ renewalThreshold then
    ((refreshSVID fetched cache).1, 1)
  else
    (cache, 0)

/-- Events observed by `startAutoRenewal`'s `select`: the context being
cancelled (`ctx.Done()`), or a ticker tick at instant `now` whose refresh
attempt, were one made, would return `fetched`. -/
inductive LoopEvent where
  | done
  | tick (now : Time) (fetched : Except String SVIDResponse)

/-- `startAutoRenewal` run over a finite trace of events: it stops at
`done` and otherwise processes each tick and loops.  Returns the final
store contents and the total number of fetch attempts made.  The return
type has no error component: renewal failures are logged inside the tick
and never escape the loop. -/
def startAutoRenewal (renewalThreshold : Duration) :
    List LoopEvent → SVIDCache → SVIDCache × Nat
  | [], cache => (cache, 0)
  | .done :: _, cache => (cache, 0)
  | .tick now fetched :: rest, cache =>
      let step := renewalTick renewalThreshold now fetched cache
      let tail := startAutoRenewal renewalThreshold rest step.1
      (tail.1, step.2 + tail.2)

/-! ## IssuanceClient (`HeadlessAPI`) -/

/-- The outcome of one HTTP exchange as the client code observes it: the
`HTTPClient.Do` call failing outright, or a response with a status code,
the result of JSON-decoding its body into `β`, and the raw body text (read
for error messages). -/
inductive HTTPExchange (β : Type) where
  | doError (msg : String)
  | response (status : Nat) (decoded : Except String β) (rawBody : String)

/-- One entry of the lookup response's `workloads` array. -/
structure Workload where
  ID : String
  SPIFFEID : String
deriving DecidableEq, Repr

/-- The decoded body of the workload-lookup response. -/
structure WorkloadListResponse where
  workloads : List Workload
deriving DecidableEq, Repr

/-- `HeadlessAPI.RegisterAndIssueSVID`: transport failure is an error; any
status other than 201 (`http.StatusCreated`) is an error carrying the raw
body; otherwise success (the body is not read). -/
def RegisterAndIssueSVID (exch : HTTPExchange Unit) : Except String Unit :=
  match exch with
  | .doError m => .error ("failed to send request: " ++ m)
  | .response status _ rawBody =>
      if status ≠ 201 then
        .error ("registration failed with status " ++ toString status
          ++ ": " ++ rawBody)
      else
        .ok ()

/-- The SVID-issuance half of `HeadlessAPI.GetOrRefreshSVID` (the `svidReq`
request): transport failure is an error; any status other than 201 is an
error; an undecodable body is an error; otherwise the decoded response. -/
def issueSVIDStep (exch : HTTPExchange SVIDResponse) :
    Except String SVIDResponse :=
  match exch with
  | .doError m => .error ("failed to send SVID request: " ++ m)
  | .response status decoded rawBody =>
      if status ≠ 201 then
        .error ("SVID issuance failed with status " ++ toString status
          ++ ": " ++ rawBody)
      else
        match decoded with
        | .error m => .error ("failed to decode SVID response: " ++ m)
        | .ok svid => .ok svid

/-- `HeadlessAPI.GetOrRefreshSVID`: look the workload up by SPIFFE ID
(status must be 200, body must decode, list must be nonempty), take the
FIRST workload of the list, and unconditionally issue a new SVID for its
ID.  `issueExch` gives, per workload ID, the exchange the issuance POST
would produce; nothing is ever served from a cache. -/
def GetOrRefreshSVID (spiffeID : String)
    (lookupExch : HTTPExchange WorkloadListResponse)
    (issueExch : String → HTTPExchange SVIDResponse) :
    Except String SVIDResponse :=
  match lookupExch with
  | .doError m => .error ("failed to send request: " ++ m)
  | .response status decoded rawBody =>
      if status ≠ 200 then
        .error ("failed to get workload with status " ++ toString status
          ++ ": " ++ rawBody)
      else
        match decoded with
        | .error m => .error ("failed to decode workload response: " ++ m)
        | .ok workloadResp =>
            match workloadResp.workloads with
            | [] => .error ("workload not found for SPIFFE ID: " ++ spiffeID)
            | w :: _ => issueSVIDStep (issueExch w.ID)

/-- `HeadlessAPI.VerifyCertificate`: transport failure is an error, an
undecodable body is an error — but, unlike the other three operations, the
Go code never inspects `resp.StatusCode`: the body is decoded and returned
whatever the status. -/
def VerifyCertificate (exch : HTTPExchange ValidationResult) :
    Except String ValidationResult :=
  match exch with
  | .doError m => .error ("failed to send request: " ++ m)
  | .response _ decoded _ =>
      match decoded with
      | .error m => .error ("failed to decode verification response: " ++ m)
      | .ok result => .ok result

/-- A concrete decoded body for the C2 counterexample: a server answering
with a non-200 status whose body nonetheless decodes. -/
def cexValidationResult : ValidationResult :=
  ⟨true, "spiffe://authsec.dev/mallory", "subj", "iss", "nb", "na"⟩

/-! ## OutgoingAttachmentMiddleware (`spiffeMTLSTransport.RoundTrip`) -/

/-- An `http.Request` as far as the clone-and-dispatch middleware is
concerned: method, URL host, `Host` field, header entries, body bytes. -/
structure Request where
  Method : String
  URLHost : String
  Host : String
  Header : List (String × List String)
  Body : String
deriving DecidableEq, Repr

/-- `req.Clone(req.Context())`: a fresh request object whose fields (header
map included) are deep copies of the original's. -/
def cloneRequest (r : Request) : Request :=
  { Method := r.Method, URLHost := r.URLHost, Host := r.Host,
    Header := r.Header, Body := r.Body }

/-- A heap of live `*http.Request` objects, addressed by allocation index.
Pointers are modelled explicitly so that a mutation of the caller's object
would be observable in the final heap. -/
structure ReqHeap where
  cells : List Request
deriving Repr

/-- Dereference an address. -/
def ReqHeap.get (h : ReqHeap) (a : Nat) : Option Request :=
  h.cells.get? a

/-- `Clone` allocates a new object holding a copy of the addressed request
and returns the extended heap together with the fresh address (dangling
addresses are returned unchanged; they do not occur in a run). -/
def ReqHeap.clone (h : ReqHeap) (a : Nat) : ReqHeap × Nat :=
  match h.cells.get? a with
  | some r => (⟨h.cells ++ [cloneRequest r]⟩, h.cells.length)
  | none => (h, a)

/-- `spiffeMTLSTransport.RoundTrip`: rebinds its local `req` variable to a
clone of the caller's request and dispatches the clone through the inner
transport.  The inner transport is a heap reader (per the
`http.RoundTripper` contract it must not modify the request).  Returns the
final heap, the address actually dispatched, and the response. -/
def spiffeMTLSTransport_RoundTrip {Resp : Type}
    (transport : ReqHeap → Nat → Resp)
    (h : ReqHeap) (reqAddr : Nat) : ReqHeap × Nat × Resp :=
  let cloned := h.clone reqAddr
  (cloned.1, cloned.2, transport cloned.1 cloned.2)

end SpiffeSdk

namespace SpiffeSdk

/-- C1 — For a request presenting at least one peer certificate, the
handler is invoked (with an identity in context) iff `ValidateIncomingSVID`
returns without error and with `Valid = true`; in that case the attached
identity is the result's SPIFFE ID; otherwise the middleware writes a 401
and the handler never runs (fail-closed). -/
theorem incomingValidation_failClosed
    (validate : String → Except String ValidationResult)
    (certToPEM : Cert → String)
    (st : TLSConnectionState) (c : Cert) (cs : List Cert)
    (hpc : st.PeerCertificates = c :: cs) :
    ((∃ ident, (IncomingValidationMiddleware validate certToPEM (some st)).result
        = .handlerInvoked (some ident))
      ↔ ∃ r, validate (certToPEM c) = .ok r ∧ r.Valid = true)
    ∧ (∀ r, validate (certToPEM c) = .ok r → r.Valid = true →
        (IncomingValidationMiddleware validate certToPEM (some st)).result
          = .handlerInvoked (some r.SPIFFEID))
    ∧ (¬ (∃ r, validate (certToPEM c) = .ok r ∧ r.Valid = true) →
        IncomingValidationMiddleware validate certToPEM (some st)
          = ⟨.errorResponse 401 "Invalid client certificate", 1⟩) := by
  obtain ⟨pcs⟩ := st
  have hpc' : pcs = c :: cs := hpc
  subst hpc'
  cases hv : validate (certToPEM c) with
  | error e =>
    refine ⟨?_, ?_, ?_⟩
    · constructor
      · rintro ⟨ident, hident⟩
        simp [IncomingValidationMiddleware, hv] at hident
      · rintro ⟨r, hr, _⟩
        simp at hr
    · intro r hr
      simp at hr
    · intro _
      simp [IncomingValidationMiddleware, hv]
  | ok r =>
    by_cases hval : r.Valid
    · refine ⟨?_, ?_, ?_⟩
      · constructor
        · intro _; exact ⟨r, rfl, hval⟩
        · rintro ⟨r', hr', hval'⟩
          obtain rfl : r = r' := by simpa using hr'
          refine ⟨r.SPIFFEID, ?_⟩
          simp [IncomingValidationMiddleware, hv, hval]
      · intro r' hr' _
        obtain rfl : r = r' := by simpa using hr'
        simp [IncomingValidationMiddleware, hv, hval]
      · intro hnone
        exact absurd ⟨r, rfl, hval⟩ hnone
    · refine ⟨?_, ?_, ?_⟩
      · constructor
        · rintro ⟨ident, hident⟩
          simp [IncomingValidationMiddleware, hv, hval] at hident
        · rintro ⟨r', hr', hval'⟩
          obtain rfl : r = r' := by simpa using hr'
          exact absurd hval' hval
      · intro r' hr' hval'
        obtain rfl : r = r' := by simpa using hr'
        exact absurd hval' hval
      · intro _
        simp [IncomingValidationMiddleware, hv, hval]

/-- Witness for C1: a concrete verifier that accepts, at which the handler
runs with the identity attached. -/
theorem incomingValidation_failClosed_witness :
    ((∃ ident, (IncomingValidationMiddleware
          (fun _ => .ok ⟨true, "spiffe://authsec.dev/a", "s", "i", "nb", "na"⟩)
          (fun c => c) (some ⟨["certA"]⟩)).result
        = .handlerInvoked (some ident))
      ↔ ∃ r, (fun (_ : String) =>
            (Except.ok ⟨true, "spiffe://authsec.dev/a", "s", "i", "nb", "na"⟩ :
              Except String ValidationResult)) ((fun c => c) "certA") = .ok r
          ∧ r.Valid = true)
    ∧ (∀ r, (fun (_ : String) =>
          (Except.ok ⟨true, "spiffe://authsec.dev/a", "s", "i", "nb", "na"⟩ :
            Except String ValidationResult)) ((fun c => c) "certA") = .ok r →
        r.Valid = true →
        (IncomingValidationMiddleware
          (fun _ => .ok ⟨true, "spiffe://authsec.dev/a", "s", "i", "nb", "na"⟩)
          (fun c => c) (some ⟨["certA"]⟩)).result
          = .handlerInvoked (some r.SPIFFEID))
    ∧ (¬ (∃ r, (fun (_ : String) =>
            (Except.ok ⟨true, "spiffe://authsec.dev/a", "s", "i", "nb", "na"⟩ :
              Except String ValidationResult)) ((fun c => c) "certA") = .ok r
          ∧ r.Valid = true) →
        IncomingValidationMiddleware
          (fun _ => .ok ⟨true, "spiffe://authsec.dev/a", "s", "i", "nb", "na"⟩)
          (fun c => c) (some ⟨["certA"]⟩)
          = ⟨.errorResponse 401 "Invalid client certificate", 1⟩) :=
  incomingValidation_failClosed
    (fun _ => .ok ⟨true, "spiffe://authsec.dev/a", "s", "i", "nb", "na"⟩)
    (fun c => c) ⟨["certA"]⟩ "certA" [] rfl

/-- C5 — A request with no TLS state, or with an empty peer-certificate
list, is passed straight to the wrapped handler: no verification call is
made and no identity is attached (fail-open pass-through). -/
theorem incomingValidation_passThrough
    (validate : String → Except String ValidationResult)
    (certToPEM : Cert → String)
    (tls : Option TLSConnectionState)
    (h : tls = none ∨ ∃ st, tls = some st ∧ st.PeerCertificates = []) :
    IncomingValidationMiddleware validate certToPEM tls
      = ⟨.handlerInvoked none, 0⟩ := by
  rcases h with h | ⟨st, hst, hpc⟩
  · rw [h]; rfl
  · obtain ⟨pcs⟩ := st
    have hpc' : pcs = [] := hpc
    subst hpc'
    rw [hst]; rfl

/-- Witness for C5: a request with TLS state but an empty peer-certificate
list is passed through with no verification and no identity. -/
theorem incomingValidation_passThrough_witness :
    IncomingValidationMiddleware
      (fun _ => .error "unreachable") (fun c => c) (some ⟨[]⟩)
      = ⟨.handlerInvoked none, 0⟩ :=
  incomingValidation_passThrough (fun _ => .error "unreachable") (fun c => c)
    (some ⟨[]⟩) (Or.inr ⟨⟨[]⟩, rfl, rfl⟩)

/-- C3 — With domain rules `[".svc.cluster.local", "authsec"]` the router
selects mTLS for `"a.authsec.svc.cluster.local"` (dot-prefixed suffix
match) and for `"payment-service.authsec"` (bare-rule suffix match), and
the regular transport for `"external.example.com"`; moreover any rule that
matches its host sends the request through mTLS when it stands first in the
list (first match wins).  `selectTransport` is a pure function of the rule
list and the host, so determinism and freedom from side effects hold by
construction. -/
theorem smartTransport_routing :
    selectTransport [".svc.cluster.local", "authsec"]
        "a.authsec.svc.cluster.local" = .mtls
    ∧ selectTransport [".svc.cluster.local", "authsec"]
        "payment-service.authsec" = .mtls
    ∧ selectTransport [".svc.cluster.local", "authsec"]
        "external.example.com" = .regular
    ∧ (∀ (domain : String) (rest : List String) (host : String),
        (host == domain
          || (decide (0 < domain.length) && (domain.front == '.')
              && hasSuffix host domain)
          || (decide (1 < domain.length) && !(domain.front == '.')
              && (host == domain || hasSuffix host ("." ++ domain)))) = true →
        selectTransport (domain :: rest) host = .mtls) := by
  refine ⟨by decide, by decide, by decide, ?_⟩
  intro domain rest host hmatch
  unfold selectTransport
  cases hb1 : (host == domain
      || (decide (0 < domain.length) && (domain.front == '.')
          && hasSuffix host domain)) with
  | true => simp [hb1]
  | false =>
    rw [Bool.or_eq_true, Bool.or_eq_true] at hmatch
    rw [Bool.or_eq_false_iff] at hb1
    rcases hmatch with (h1 | h2) | h3
    · rw [hb1.1] at h1; simp at h1
    · rw [hb1.2] at h2; simp at h2
    · simp [h3]

/-- Witness for C3's first-match conjunct: the bare rule `"authsec"` at the
head of the list matches host `"x.authsec"` and yields mTLS. -/
theorem smartTransport_routing_witness :
    selectTransport ["authsec", "other"] "x.authsec" = .mtls :=
  smartTransport_routing.2.2.2 "authsec" ["other"] "x.authsec" (by decide)

/-- C4 (counterexample) — The credential value held before the first
successful fetch (the Go zero value installed by `NewSpiffeSDK`) has
`expires_at = issued_at = 0`, so `expires_at > issued_at` fails for it. -/
theorem stored_credential_validity_cex :
    ¬ newSpiffeSDKCache.IssuedAt < newSpiffeSDKCache.ExpiresAt := by decide

/-- C4 (amended) — The store's initial value has `expires_at = issued_at`
(zero time), so the strict invariant fails before the first fetch; every
value written by a refresh copies `issued_at` and `expires_at` verbatim
from the issuance response, so a stored credential satisfies
`expires_at > issued_at` exactly when the response that produced it
does — the SDK itself never enforces the inequality. -/
theorem stored_credential_validity :
    newSpiffeSDKCache.ExpiresAt = newSpiffeSDKCache.IssuedAt
    ∧ ∀ (svid : SVIDResponse) (cache : SVIDCache),
        (refreshSVID (.ok svid) cache).1.ExpiresAt = svid.ExpiresAt
        ∧ (refreshSVID (.ok svid) cache).1.IssuedAt = svid.IssuedAt
        ∧ ((refreshSVID (.ok svid) cache).1.IssuedAt
              < (refreshSVID (.ok svid) cache).1.ExpiresAt
            ↔ svid.IssuedAt < svid.ExpiresAt) := by
  refine ⟨rfl, fun svid cache => ⟨rfl, rfl, Iff.rfl⟩⟩

/-- C6 — On a tick, a fetch is attempted iff the store's time-to-expiry is
at most the renewal threshold; at most one attempt is ever made per tick,
and none while time-to-expiry strictly exceeds the threshold (the tick then
leaves the store untouched). -/
theorem renewal_tick_fetch_iff (renewalThreshold : Duration) (now : Time)
    (fetched : Except String SVIDResponse) (cache : SVIDCache) :
    ((renewalTick renewalThreshold now fetched cache).2 = 1
      ↔ timeToExpiry cache now ≤ renewalThreshold)
    ∧ (renewalTick renewalThreshold now fetched cache).2 ≤ 1
    ∧ (renewalThreshold < timeToExpiry cache now →
        renewalTick renewalThreshold now fetched cache = (cache, 0)) := by
  unfold renewalTick
  by_cases h : timeToExpiry cache now ≤ renewalThreshold
  · simp [h]
  · simp [h]

/-- Witness for C6: threshold 5, the zero-value credential as of instant
0 — time-to-expiry 0 ≤ 5, so the tick makes exactly one fetch attempt. -/
theorem renewal_tick_fetch_iff_witness :
    (renewalTick 5 0 (.error "boom") newSpiffeSDKCache).2 = 1 :=
  (renewal_tick_fetch_iff 5 0 (.error "boom") newSpiffeSDKCache).1.mpr
    (by decide)

/-- C7 — A failed renewal attempt leaves the stored credential unchanged,
and the loop simply continues: running the loop from a tick whose fetch
fails produces the same final store as running it from the remaining events
alone, with the failed attempt merely counted; no error ever escapes the
loop (its return type carries none). -/
theorem renewal_failure_benign (renewalThreshold : Duration) (now : Time)
    (e : String) (rest : List LoopEvent) (cache : SVIDCache) :
    (renewalTick renewalThreshold now (.error e) cache).1 = cache
    ∧ startAutoRenewal renewalThreshold (.tick now (.error e) :: rest) cache
        = ((startAutoRenewal renewalThreshold rest cache).1,
           (renewalTick renewalThreshold now (.error e) cache).2
             + (startAutoRenewal renewalThreshold rest cache).2) := by
  have hstep : (renewalTick renewalThreshold now (.error e) cache).1 = cache := by
    unfold renewalTick refreshSVID
    by_cases h : timeToExpiry cache now ≤ renewalThreshold <;> simp [h]
  refine ⟨hstep, ?_⟩
  simp only [startAutoRenewal]
  rw [hstep]

/-- C9 — Before the first successful fetch the cached credential is the Go
zero value: `GetCurrentSVID` returns the empty string, `issued_at` and
`expires_at` are the zero time, and time-to-expiry at any positive instant
is negative. -/
theorem initial_cache_empty (now : Time) (h : 0 < now) :
    GetCurrentSVID newSpiffeSDKCache = ""
    ∧ newSpiffeSDKCache.IssuedAt = 0
    ∧ newSpiffeSDKCache.ExpiresAt = 0
    ∧ timeToExpiry newSpiffeSDKCache now < 0 := by
  refine ⟨rfl, rfl, rfl, ?_⟩
  have h' : (0 : Int) < now := h
  show (0 : Int) - now < 0
  omega

/-- Witness for C9: instant 1. -/
theorem initial_cache_empty_witness :
    GetCurrentSVID newSpiffeSDKCache = ""
    ∧ newSpiffeSDKCache.IssuedAt = 0
    ∧ newSpiffeSDKCache.ExpiresAt = 0
    ∧ timeToExpiry newSpiffeSDKCache 1 < 0 :=
  initial_cache_empty 1 (by decide)

/-- C2 (counterexample) — `VerifyCertificate` given a 500 response whose
body nonetheless decodes returns the decoded `ValidationResult`, not an
error: contrary to the claim, a non-200 status is not mapped to an error
there. -/
theorem verifyCertificate_nonSuccess_cex :
    VerifyCertificate
        (.response 500 (.ok cexValidationResult) "Internal Server Error")
      = .ok cexValidationResult
    ∧ (500 : Nat) ≠ 200 :=
  ⟨rfl, by decide⟩

/-- C2 (amended) — Register, the workload lookup, and SVID issuance map any
response status outside their documented success codes (201, 200, 201) to
an error; `VerifyCertificate`, however, performs no status check at all: it
errors only on transport failure or an undecodable body, and returns the
decoded `ValidationResult` for every status code, 200 or not. -/
theorem nonSuccess_status_mapping
    (status : Nat) (raw spiffeID : String)
    (du : Except String Unit) (dw : Except String WorkloadListResponse)
    (ds : Except String SVIDResponse)
    (issueExch : String → HTTPExchange SVIDResponse)
    (r : ValidationResult) :
    (status ≠ 201 →
      RegisterAndIssueSVID (.response status du raw)
        = .error ("registration failed with status " ++ toString status
            ++ ": " ++ raw))
    ∧ (status ≠ 200 →
        GetOrRefreshSVID spiffeID (.response status dw raw) issueExch
          = .error ("failed to get workload with status " ++ toString status
              ++ ": " ++ raw))
    ∧ (status ≠ 201 →
        issueSVIDStep (.response status ds raw)
          = .error ("SVID issuance failed with status " ++ toString status
              ++ ": " ++ raw))
    ∧ VerifyCertificate (.response status (.ok r) raw) = .ok r := by
  refine ⟨fun h => ?_, fun h => ?_, fun h => ?_, rfl⟩
  · simp [RegisterAndIssueSVID, h]
  · simp [GetOrRefreshSVID, h]
  · simp [issueSVIDStep, h]

/-- Witness for C2's amended theorem: status 500 is rejected by the three
status-checked operations and accepted by `VerifyCertificate`. -/
theorem nonSuccess_status_mapping_witness :
    RegisterAndIssueSVID (.response 500 (.ok ()) "oops")
      = .error ("registration failed with status " ++ toString (500 : Nat)
          ++ ": " ++ "oops")
    ∧ GetOrRefreshSVID "spiffe://authsec.dev/a"
        (.response 500 (.ok ⟨[]⟩) "oops") (fun _ => .doError "down")
      = .error ("failed to get workload with status " ++ toString (500 : Nat)
          ++ ": " ++ "oops")
    ∧ issueSVIDStep (.response 500 (.error "bad json") "oops")
      = .error ("SVID issuance failed with status " ++ toString (500 : Nat)
          ++ ": " ++ "oops")
    ∧ VerifyCertificate (.response 500 (.ok cexValidationResult) "oops")
      = .ok cexValidationResult :=
  ⟨(nonSuccess_status_mapping 500 "oops" "spiffe://authsec.dev/a" (.ok ())
      (.ok ⟨[]⟩) (.error "bad json") (fun _ => .doError "down")
      cexValidationResult).1 (by decide),
   (nonSuccess_status_mapping 500 "oops" "spiffe://authsec.dev/a" (.ok ())
      (.ok ⟨[]⟩) (.error "bad json") (fun _ => .doError "down")
      cexValidationResult).2.1 (by decide),
   (nonSuccess_status_mapping 500 "oops" "spiffe://authsec.dev/a" (.ok ())
      (.ok ⟨[]⟩) (.error "bad json") (fun _ => .doError "down")
      cexValidationResult).2.2.1 (by decide),
   (nonSuccess_status_mapping 500 "oops" "spiffe://authsec.dev/a" (.ok ())
      (.ok ⟨[]⟩) (.error "bad json") (fun _ => .doError "down")
      cexValidationResult).2.2.2⟩

/-- C10 — When the lookup succeeds (status 200, decodable body, nonempty
workload list), `GetOrRefreshSVID` is exactly the result of a fresh SVID
issuance for the FIRST workload's ID — it never serves a cached
credential — and any successful return value is the decoded body of that
issuance exchange, which must have status 201. -/
theorem getOrRefresh_always_issues
    (spiffeID raw : String) (dw : WorkloadListResponse)
    (issueExch : String → HTTPExchange SVIDResponse)
    (w : Workload) (ws : List Workload)
    (hw : dw.workloads = w :: ws) :
    GetOrRefreshSVID spiffeID (.response 200 (.ok dw) raw) issueExch
      = issueSVIDStep (issueExch w.ID)
    ∧ ∀ svid, GetOrRefreshSVID spiffeID (.response 200 (.ok dw) raw) issueExch
        = .ok svid →
        ∃ raw2, issueExch w.ID = .response 201 (.ok svid) raw2 := by
  obtain ⟨wl⟩ := dw
  have hw' : wl = w :: ws := hw
  subst hw'
  have hmain : GetOrRefreshSVID spiffeID
      (.response 200 (.ok ⟨w :: ws⟩) raw) issueExch
      = issueSVIDStep (issueExch w.ID) := by
    simp [GetOrRefreshSVID]
  refine ⟨hmain, fun svid hok => ?_⟩
  rw [hmain] at hok
  cases hex : issueExch w.ID with
  | doError m =>
    rw [hex] at hok
    simp [issueSVIDStep] at hok
  | response st d raw2 =>
    rw [hex] at hok
    by_cases hst : st = 201
    · subst hst
      cases d with
      | error m => simp [issueSVIDStep] at hok
      | ok s =>
        have hs : s = svid := by simpa [issueSVIDStep] using hok
        subst hs
        exact ⟨raw2, rfl⟩
    · simp [issueSVIDStep, hst] at hok

/-- Witness for C10: one registered workload, an issuance endpoint
answering 201 with a concrete SVID. -/
theorem getOrRefresh_always_issues_witness :
    GetOrRefreshSVID "spiffe://authsec.dev/a"
        (.response 200 (.ok ⟨[⟨"wl-1", "spiffe://authsec.dev/a"⟩]⟩) "")
        (fun _ => .response 201
          (.ok ⟨"id1", "wl-1", "spiffe://authsec.dev/a", "CERT", "KEY",
            "BUNDLE", 3600, 0⟩) "")
      = issueSVIDStep ((fun (_ : String) => HTTPExchange.response 201
          (Except.ok (⟨"id1", "wl-1", "spiffe://authsec.dev/a", "CERT",
            "KEY", "BUNDLE", 3600, 0⟩ : SVIDResponse)) "")
          (Workload.mk "wl-1" "spiffe://authsec.dev/a").ID)
    ∧ ∀ svid, GetOrRefreshSVID "spiffe://authsec.dev/a"
        (.response 200 (.ok ⟨[⟨"wl-1", "spiffe://authsec.dev/a"⟩]⟩) "")
        (fun _ => .response 201
          (.ok ⟨"id1", "wl-1", "spiffe://authsec.dev/a", "CERT", "KEY",
            "BUNDLE", 3600, 0⟩) "")
        = .ok svid →
        ∃ raw2, (fun (_ : String) => HTTPExchange.response 201
            (Except.ok (⟨"id1", "wl-1", "spiffe://authsec.dev/a", "CERT",
              "KEY", "BUNDLE", 3600, 0⟩ : SVIDResponse)) "")
            (Workload.mk "wl-1" "spiffe://authsec.dev/a").ID
          = .response 201 (.ok svid) raw2 :=
  getOrRefresh_always_issues "spiffe://authsec.dev/a" ""
    ⟨[⟨"wl-1", "spiffe://authsec.dev/a"⟩]⟩
    (fun _ => .response 201
      (.ok ⟨"id1", "wl-1", "spiffe://authsec.dev/a", "CERT", "KEY",
        "BUNDLE", 3600, 0⟩) "")
    ⟨"wl-1", "spiffe://authsec.dev/a"⟩ [] rfl

/-- C8 — `spiffeMTLSTransport.RoundTrip` never mutates the caller's
request: after the round trip the caller's address still holds the very
same request value; what is dispatched is a freshly allocated clone at a
different address, and the clone agrees with the original on every
field. -/
theorem roundTrip_no_mutation {Resp : Type}
    (transport : ReqHeap → Nat → Resp)
    (h : ReqHeap) (a : Nat) (r : Request) (ha : h.get a = some r) :
    (spiffeMTLSTransport_RoundTrip transport h a).1.get a = some r
    ∧ (spiffeMTLSTransport_RoundTrip transport h a).2.1 ≠ a
    ∧ (spiffeMTLSTransport_RoundTrip transport h a).1.get
        (spiffeMTLSTransport_RoundTrip transport h a).2.1
        = some (cloneRequest r)
    ∧ cloneRequest r = r := by
  have halen : a < h.cells.length := (List.get?_eq_some.mp ha).1
  have hclone : h.clone a = (⟨h.cells ++ [cloneRequest r]⟩, h.cells.length) := by
    unfold ReqHeap.clone
    rw [show h.cells.get? a = some r from ha]
  have hrt : spiffeMTLSTransport_RoundTrip transport h a
      = (⟨h.cells ++ [cloneRequest r]⟩, h.cells.length,
         transport ⟨h.cells ++ [cloneRequest r]⟩ h.cells.length) := by
    unfold spiffeMTLSTransport_RoundTrip
    rw [hclone]
  refine ⟨?_, ?_, ?_, rfl⟩
  · rw [hrt]
    show (h.cells ++ [cloneRequest r]).get? a = some r
    rw [List.get?_eq_getElem?, List.getElem?_append_left halen]
    rw [← List.get?_eq_getElem?]
    exact ha
  · rw [hrt]
    exact fun hcontra => absurd (hcontra ▸ halen) (lt_irrefl _)
  · rw [hrt]
    show (h.cells ++ [cloneRequest r]).get? h.cells.length
      = some (cloneRequest r)
    rw [List.get?_eq_getElem?]
    exact List.getElem?_concat_length _ _

/-- Witness for C8: a one-request heap; the round trip leaves address 0
untouched and dispatches an equal copy at address 1. -/
theorem roundTrip_no_mutation_witness :
    (spiffeMTLSTransport_RoundTrip (fun _ _ => ())
        ⟨[⟨"GET", "payment-service.authsec", "", [("A", ["b"])], "body"⟩]⟩
        0).1.get 0
      = some ⟨"GET", "payment-service.authsec", "", [("A", ["b"])], "body"⟩
    ∧ (spiffeMTLSTransport_RoundTrip (fun _ _ => ())
        ⟨[⟨"GET", "payment-service.authsec", "", [("A", ["b"])], "body"⟩]⟩
        0).2.1 ≠ 0
    ∧ (spiffeMTLSTransport_RoundTrip (fun _ _ => ())
        ⟨[⟨"GET", "payment-service.authsec", "", [("A", ["b"])], "body"⟩]⟩
        0).1.get
        (spiffeMTLSTransport_RoundTrip (fun _ _ => ())
          ⟨[⟨"GET", "payment-service.authsec", "", [("A", ["b"])], "body"⟩]⟩
          0).2.1
      = some (cloneRequest
          ⟨"GET", "payment-service.authsec", "", [("A", ["b"])], "body"⟩)
    ∧ cloneRequest
        ⟨"GET", "payment-service.authsec", "", [("A", ["b"])], "body"⟩
      = ⟨"GET", "payment-service.authsec", "", [("A", ["b"])], "body"⟩ :=
  roundTrip_no_mutation (fun _ _ => ())
    ⟨[⟨"GET", "payment-service.authsec", "", [("A", ["b"])], "body"⟩]⟩
    0 ⟨"GET", "payment-service.authsec", "", [("A", ["b"])], "body"⟩ rfl

end SpiffeSdk
